import Mathlib

/-!
Verification development for the audio-reactive visual player
(`soudofme_base_structure`).  The audio feature extraction and scene
simulation kernels are embedded shallowly: `Uint8Array` magnitude snapshots
become `List ℕ` (each sample in `[0,255]`), float arithmetic becomes exact
rational arithmetic over `ℚ`, and the per-frame mutable class state becomes
explicit state records with pure step functions.  Bin indices are the
natural positions of an ordered snapshot, so they are modelled by `ℕ`.
Calls to the platform random generator are modelled by explicit rational
parameters in `[0,1]` supplied to the step functions.
-/

namespace Soudofme

open List

/-- The index set visited by the loop `for (i = s; i <= e && i < arr.length; i++)`
shared by every `avg` helper in the scene files. -/
def avgIdx (len s e : ℕ) : List ℕ :=
  (List.range len).filter fun i => s ≤ i ∧ i ≤ e

/-- `avg` from `src/components/ThreeScene.ts` (also repeated verbatim in the
other scene files): sum the samples with index in `[s,e]` that are in bounds,
count them, and return `sum / n`, or `0` when no index was visited. -/
def avg (arr : List ℕ) (s e : ℕ) : ℚ :=
  if (avgIdx arr.length s e).length = 0 then 0
  else ((avgIdx arr.length s e).map fun i => ((arr.getD i 0 : ℕ) : ℚ)).sum /
    (avgIdx arr.length s e).length

/-- The band-energy normalisation applied at every call site of `avg`
(e.g. `avg(this.dataArray, 0, 8) / 255` in `ThreeScene.update`). -/
def band (arr : List ℕ) (s e : ℕ) : ℚ :=
  avg arr s e / 255

lemma list_sum_nonneg {l : List ℚ} (h : ∀ x ∈ l, 0 ≤ x) : 0 ≤ l.sum := by
  induction l with
  | nil => simp
  | cons a t ih =>
    simp only [List.sum_cons]
    have ha := h a (List.mem_cons_self a t)
    have ht := ih fun x hx => h x (List.mem_cons_of_mem a hx)
    linarith

lemma list_sum_le_card_mul {l : List ℚ} {c : ℚ} (h : ∀ x ∈ l, x ≤ c) :
    l.sum ≤ c * l.length := by
  induction l with
  | nil => simp
  | cons a t ih =>
    simp only [List.sum_cons, List.length_cons]
    have ha := h a (List.mem_cons_self a t)
    have ht := ih fun x hx => h x (List.mem_cons_of_mem a hx)
    push_cast
    ring_nf
    nlinarith [ht, ha]

lemma avgIdx_empty_of_lt {len s e : ℕ} (h : e < s) : avgIdx len s e = [] := by
  apply List.filter_eq_nil_iff.2
  intro i _
  simp only [decide_eq_true_eq, not_and, not_le]
  intro hs
  omega

lemma avgIdx_empty_of_oob {len s e : ℕ} (h : len ≤ s) : avgIdx len s e = [] := by
  apply List.filter_eq_nil_iff.2
  intro i hi
  simp only [List.mem_range] at hi
  simp only [decide_eq_true_eq, not_and, not_le]
  intro hs
  omega

lemma avgIdx_ne_nil {len s e : ℕ} (hse : s ≤ e) (hlt : s < len) :
    avgIdx len s e ≠ [] := by
  intro hnil
  have : s ∈ avgIdx len s e := by
    unfold avgIdx
    simp only [List.mem_filter, List.mem_range, decide_eq_true_eq]
    exact ⟨hlt, le_refl s, hse⟩
  rw [hnil] at this
  exact List.not_mem_nil s this

/-- C1. `BandAggregator` (the `avg` helper of `ThreeScene.ts` divided by the
sample maximum `255`): on a snapshot of byte samples, for every inclusive bin
range `[s,e]` fully within bounds the normalised band value lies in `[0,1]`;
for `s > e`, and for a range with both endpoints out of bounds, it is `0`. -/
theorem band_range_and_degenerate (arr : List ℕ) (s e : ℕ)
    (hbyte : ∀ x ∈ arr, x ≤ 255) :
    (s ≤ e → e < arr.length → 0 ≤ band arr s e ∧ band arr s e ≤ 1) ∧
    (e < s → band arr s e = 0) ∧
    (arr.length ≤ s → arr.length ≤ e → band arr s e = 0) := by
  refine ⟨?_, ?_, ?_⟩
  · intro hse he
    have hslt : s < arr.length := lt_of_le_of_lt hse he
    have hne : avgIdx arr.length s e ≠ [] := avgIdx_ne_nil hse hslt
    have hlen : 0 < (avgIdx arr.length s e).length := List.length_pos.2 hne
    have hlz : ¬ (avgIdx arr.length s e).length = 0 := Nat.pos_iff_ne_zero.1 hlen
    rw [band, avg, if_neg hlz]
    set idx := avgIdx arr.length s e with hidx
    set ml := idx.map fun i => ((arr.getD i 0 : ℕ) : ℚ) with hml
    have hmllen : ml.length = idx.length :=
      List.length_map idx fun i => ((arr.getD i 0 : ℕ) : ℚ)
    have hnonneg : (0 : ℚ) ≤ ml.sum := by
      apply list_sum_nonneg
      intro x hx
      rw [hml] at hx
      simp only [List.mem_map] at hx
      obtain ⟨i, _, rfl⟩ := hx
      positivity
    have hub : ml.sum ≤ 255 * ml.length := by
      apply list_sum_le_card_mul
      intro x hx
      rw [hml] at hx
      simp only [List.mem_map] at hx
      obtain ⟨i, hi, rfl⟩ := hx
      have hle : arr.getD i 0 ≤ 255 := by
        rcases Nat.lt_or_ge i arr.length with hlt | hge
        · rw [List.getD_eq_getElem arr 0 hlt]
          exact hbyte _ (List.getElem_mem hlt)
        · exfalso
          rw [hidx] at hi
          unfold avgIdx at hi
          simp only [List.mem_filter, List.mem_range] at hi
          omega
      exact_mod_cast hle
    rw [hmllen] at hub
    have hlpos : (0 : ℚ) < idx.length := by exact_mod_cast hlen
    constructor
    · positivity
    · rw [div_le_one (by positivity)]
      rw [div_le_iff₀ hlpos]
      linarith
  · intro hlt
    unfold band avg
    simp [avgIdx_empty_of_lt hlt]
  · intro hs _
    unfold band avg
    simp [avgIdx_empty_of_oob hs]

/-- Concrete instance of the C1 theorem: snapshot `[0, 255, 100]`, in-bounds
range `[0,1]`, empty range `[2,1]`, out-of-bounds range `[3,5]`. -/
theorem band_range_and_degenerate_witness :
    (0 ≤ band [0, 255, 100] 0 1 ∧ band [0, 255, 100] 0 1 ≤ 1) ∧
    band [0, 255, 100] 2 1 = 0 ∧ band [0, 255, 100] 3 5 = 0 := by
  have h := band_range_and_degenerate [0, 255, 100] 0 1 (by decide)
  have h2 := band_range_and_degenerate [0, 255, 100] 2 1 (by decide)
  have h3 := band_range_and_degenerate [0, 255, 100] 3 5 (by decide)
  exact ⟨h.1 (by decide) (by decide), h2.2.1 (by decide),
    h3.2.2 (by decide) (by decide)⟩

/-- One addend of the spectral-flux loop body shared by both `bandFlux`
functions: `d = cur[i] - prev[i]; if (d > 0) flux += d`.  When `i` is past the
end of `prev` the subtraction involves an undefined value and the `d > 0`
test fails, so the bin contributes nothing. -/
def bandFluxTerm (cur prev : List ℚ) (i : ℕ) : ℚ :=
  if i < prev.length ∧ 0 < cur.getD i 0 - prev.getD i 0 then
    cur.getD i 0 - prev.getD i 0
  else 0

/-- The low-bin-favouring weight `w = 1 + (s + (e - i)) / (e - s + 1)` of the
weighted `bandFlux` in `src/unnamed/part_004` (only evaluated for `s ≤ i ≤ e`). -/
def fluxWeight (s e i : ℕ) : ℚ :=
  1 + ((s + (e - i) : ℕ) : ℚ) / ((e - s + 1 : ℕ) : ℚ)

/-- `bandFlux` from `src/unnamed/part_005`: half-wave-rectified spectral flux
over the bin range `[s,e]`, normalised by `max(1, e - s + 1)`. -/
def bandFlux (cur prev : List ℚ) (s e : ℕ) : ℚ :=
  ((avgIdx cur.length s e).map fun i => bandFluxTerm cur prev i).sum /
    ((max 1 (e - s + 1) : ℕ) : ℚ)

/-- `bandFlux` from `src/unnamed/part_004`: as `bandFlux`, with each rectified
difference multiplied by the weight `fluxWeight`. -/
def bandFluxWeighted (cur prev : List ℚ) (s e : ℕ) : ℚ :=
  ((avgIdx cur.length s e).map fun i => bandFluxTerm cur prev i * fluxWeight s e i).sum /
    ((max 1 (e - s + 1) : ℕ) : ℚ)

lemma bandFluxTerm_nonneg (cur prev : List ℚ) (i : ℕ) :
    0 ≤ bandFluxTerm cur prev i := by
  unfold bandFluxTerm
  split
  · next h => linarith [h.2]
  · exact le_refl 0

lemma fluxWeight_nonneg (s e i : ℕ) : 0 ≤ fluxWeight s e i := by
  unfold fluxWeight
  positivity

lemma bandFluxTerm_eq_zero (cur prev : List ℚ) (i : ℕ)
    (h : cur.getD i 0 ≤ prev.getD i 0) : bandFluxTerm cur prev i = 0 := by
  unfold bandFluxTerm
  rw [if_neg]
  rintro ⟨-, hpos⟩
  linarith

/-- C2. Spectral flux (both the plain `bandFlux` of `part_005` and the
weighted `bandFlux` of `part_004`) is nonnegative for every pair of spectra
and every bin range, and is exactly `0` whenever every bin of the current
spectrum is at most the corresponding bin of the previous spectrum. -/
theorem bandFlux_rectification (cur prev : List ℚ) (s e : ℕ) :
    0 ≤ bandFlux cur prev s e ∧ 0 ≤ bandFluxWeighted cur prev s e ∧
    ((∀ i, cur.getD i 0 ≤ prev.getD i 0) →
      bandFlux cur prev s e = 0 ∧ bandFluxWeighted cur prev s e = 0) := by
  have hden : (0 : ℚ) < ((max 1 (e - s + 1) : ℕ) : ℚ) := by
    have : 1 ≤ max 1 (e - s + 1) := le_max_left 1 (e - s + 1)
    exact_mod_cast lt_of_lt_of_le Nat.zero_lt_one this
  refine ⟨?_, ?_, ?_⟩
  · unfold bandFlux
    apply div_nonneg _ (le_of_lt hden)
    apply list_sum_nonneg
    intro x hx
    simp only [List.mem_map] at hx
    obtain ⟨i, _, rfl⟩ := hx
    exact bandFluxTerm_nonneg cur prev i
  · unfold bandFluxWeighted
    apply div_nonneg _ (le_of_lt hden)
    apply list_sum_nonneg
    intro x hx
    simp only [List.mem_map] at hx
    obtain ⟨i, _, rfl⟩ := hx
    exact mul_nonneg (bandFluxTerm_nonneg cur prev i) (fluxWeight_nonneg s e i)
  · intro hmono
    constructor
    · unfold bandFlux
      rw [List.sum_eq_zero, zero_div]
      intro x hx
      simp only [List.mem_map] at hx
      obtain ⟨i, _, rfl⟩ := hx
      exact bandFluxTerm_eq_zero cur prev i (hmono i)
    · unfold bandFluxWeighted
      rw [List.sum_eq_zero, zero_div]
      intro x hx
      simp only [List.mem_map] at hx
      obtain ⟨i, _, rfl⟩ := hx
      rw [bandFluxTerm_eq_zero cur prev i (hmono i), zero_mul]

/-- Concrete instance of the C2 theorem: a rising spectrum gives nonnegative
flux, and a pointwise non-increasing frame gives flux exactly `0` (plain and
weighted). -/
theorem bandFlux_rectification_witness :
    0 ≤ bandFlux [5, 0] [0, 0] 0 1 ∧
    bandFlux [1, 2] [3, 3] 0 1 = 0 ∧ bandFluxWeighted [1, 2] [3, 3] 0 1 = 0 := by
  have h1 := bandFlux_rectification [5, 0] [0, 0] 0 1
  have h2 := bandFlux_rectification [1, 2] [3, 3] 0 1
  have hmono : ∀ i, ([1, 2] : List ℚ).getD i 0 ≤ ([3, 3] : List ℚ).getD i 0 := by
    intro i
    match i with
    | 0 => norm_num
    | 1 => norm_num
    | n + 2 => simp [List.getD]
  exact ⟨h1.1, h2.2.2 hmono⟩

/-- Tempo-estimation state of `JourneyScene` (`src/unnamed/part_007`):
`beatIntervals`, `lastBeatTime`, `bpmEstimate` (initially 120) and
`bpmConfidence` (initially 0). -/
structure TempoState where
  beatIntervals : List ℚ
  lastBeatTime : ℚ
  bpmEstimate : ℚ
  bpmConfidence : ℚ
  deriving DecidableEq

/-- The median taken by `updateTempo`: sort ascending (as
`[...].sort((a, b) => a - b)` does) and take the entry at index
`floor(length / 2)`.  `insertionSort` produces the same list as any
comparison sort. -/
def medianQ (l : List ℚ) : ℚ :=
  (l.insertionSort fun a b => a ≤ b).getD
    ((l.insertionSort fun a b => a ≤ b).length / 2) 0

/-- The interval history after an accepted beat: push the new interval, then
`shift()` the oldest entry when the capacity of 16 is exceeded. -/
def postHistory (st : TempoState) (now : ℚ) : List ℚ :=
  if 16 < (st.beatIntervals ++ [now - st.lastBeatTime]).length then
    (st.beatIntervals ++ [now - st.lastBeatTime]).drop 1
  else
    st.beatIntervals ++ [now - st.lastBeatTime]

/-- `updateTempo(now)` of `JourneyScene` (`src/unnamed/part_007`): when a
previous beat exists and the inter-beat interval is strictly inside
`(200, 2000)` ms, record it; with at least 4 recorded intervals, smooth the
BPM estimate one tenth of the way toward `60000 / median` and set the
confidence to `min(1, length / 16)`.  `lastBeatTime` is always set to `now`. -/
def updateTempo (st : TempoState) (now : ℚ) : TempoState :=
  if 0 < st.lastBeatTime ∧ 200 < now - st.lastBeatTime ∧ now - st.lastBeatTime < 2000 then
    if 4 ≤ (postHistory st now).length then
      { beatIntervals := postHistory st now
        lastBeatTime := now
        bpmEstimate := st.bpmEstimate +
          (60000 / medianQ (postHistory st now) - st.bpmEstimate) * (1 / 10)
        bpmConfidence := min 1 (((postHistory st now).length : ℚ) / 16) }
    else
      { st with beatIntervals := postHistory st now, lastBeatTime := now }
  else
    { st with lastBeatTime := now }

/-- C3. On an accepted beat after which the history holds at least 4
intervals, `updateTempo` recomputes the target BPM as `60000 / median`,
moves the running estimate only one smoothing step toward it (so it never
lands on the new value unless it already was there), sets confidence to
`min(1, length / 16)` with capacity 16, and stores the capped history. -/
theorem updateTempo_accepted (st : TempoState) (now : ℚ)
    (hprev : 0 < st.lastBeatTime)
    (hlo : 200 < now - st.lastBeatTime) (hhi : now - st.lastBeatTime < 2000)
    (h4 : 4 ≤ (postHistory st now).length) :
    (updateTempo st now).beatIntervals = postHistory st now ∧
    (updateTempo st now).bpmEstimate = st.bpmEstimate +
      (60000 / medianQ (postHistory st now) - st.bpmEstimate) * (1 / 10) ∧
    (st.bpmEstimate ≠ 60000 / medianQ (postHistory st now) →
      (updateTempo st now).bpmEstimate ≠ 60000 / medianQ (postHistory st now)) ∧
    (updateTempo st now).bpmConfidence = min 1 (((postHistory st now).length : ℚ) / 16) ∧
    (st.beatIntervals.length ≤ 16 → (postHistory st now).length ≤ 16) := by
  unfold updateTempo
  rw [if_pos ⟨hprev, hlo, hhi⟩, if_pos h4]
  refine ⟨rfl, rfl, ?_, rfl, ?_⟩
  · intro hne heq
    simp only at heq
    apply hne
    linarith
  · intro hcap
    unfold postHistory
    split
    · next hgt =>
      simp only [List.length_drop, List.length_append, List.length_cons,
        List.length_nil] at *
      omega
    · next hgt =>
      simp only [List.length_append, List.length_cons, List.length_nil] at *
      omega

/-- Concrete instance of the C3 theorem: history `[500, 500, 500]` plus an
accepted interval of `500` ms gives median `500`, target BPM `120`, and
confidence `4/16`. -/
theorem updateTempo_accepted_witness :
    (updateTempo ⟨[500, 500, 500], 1000, 110, 0⟩ 1500).bpmEstimate = 111 ∧
    (updateTempo ⟨[500, 500, 500], 1000, 110, 0⟩ 1500).bpmConfidence = 1 / 4 := by
  have hph : postHistory ⟨[500, 500, 500], 1000, 110, 0⟩ 1500 = [500, 500, 500, 500] := by
    unfold postHistory
    norm_num
  have h := updateTempo_accepted ⟨[500, 500, 500], 1000, 110, 0⟩ 1500
    (by norm_num) (by norm_num) (by norm_num) (by rw [hph]; norm_num)
  constructor
  · rw [h.2.1, hph]
    have hm : medianQ [500, 500, 500, 500] = (500 : ℚ) := by decide
    rw [hm]
    norm_num
  · rw [h.2.2.2.1, hph]
    norm_num

/-- C4. When a previous beat exists but the inter-beat interval lies outside
the plausible musical range 200–2000 ms, `updateTempo` discards it: the
interval history, the BPM estimate and the confidence are all unchanged. -/
theorem updateTempo_discarded (st : TempoState) (now : ℚ)
    (_hprev : 0 < st.lastBeatTime)
    (hout : now - st.lastBeatTime < 200 ∨ 2000 < now - st.lastBeatTime) :
    (updateTempo st now).beatIntervals = st.beatIntervals ∧
    (updateTempo st now).bpmEstimate = st.bpmEstimate ∧
    (updateTempo st now).bpmConfidence = st.bpmConfidence := by
  unfold updateTempo
  rw [if_neg]
  · exact ⟨rfl, rfl, rfl⟩
  · rintro ⟨-, hlo, hhi⟩
    rcases hout with h | h <;> linarith

/-- Concrete instance of the C4 theorem: an interval of 100 ms (too short) is
discarded without touching history, estimate or confidence. -/
theorem updateTempo_discarded_witness :
    (updateTempo ⟨[500, 500], 1000, 110, 0⟩ 1100).beatIntervals = [500, 500] ∧
    (updateTempo ⟨[500, 500], 1000, 110, 0⟩ 1100).bpmEstimate = 110 ∧
    (updateTempo ⟨[500, 500], 1000, 110, 0⟩ 1100).bpmConfidence = 0 :=
  updateTempo_discarded ⟨[500, 500], 1000, 110, 0⟩ 1100 (by norm_num)
    (Or.inl (by norm_num))

/-- State of the ripple emitter pool of `JourneyScene`
(`src/unnamed/part_007`): a free-index stack `pool`, the `live` index list,
and the per-slot attribute arrays written by `spawnRipple`. -/
structure RippleState where
  pool : List ℕ
  live : List ℕ
  center : List (ℚ × ℚ)
  t0 : List ℚ
  dur : List ℚ
  rmax : List ℚ

/-- `rmax = 40 + 700 * Math.pow(energy, 4)` from `spawnRipple`
(`src/unnamed/part_007`). -/
def rippleRmax (energy : ℚ) : ℚ := 40 + 700 * energy ^ 4

/-- `dur = 0.6 + energy * 1.4` from `spawnRipple` (`src/unnamed/part_007`). -/
def rippleDur (energy : ℚ) : ℚ := 3 / 5 + energy * (7 / 5)

/-- `spawnRipple(cx, cy, energy)` of `JourneyScene`: pop a free slot (a
silent no-op when the pool is exhausted), append it to `live`, and write the
slot's attributes.  The spawn time `nowSec` stands for
`performance.now() * 0.001`. -/
def spawnRipple (st : RippleState) (cx cy energy nowSec : ℚ) : RippleState :=
  match st.pool.getLast? with
  | none => st
  | some i =>
    { st with
      pool := st.pool.dropLast
      live := st.live ++ [i]
      center := st.center.set i (cx, cy)
      t0 := st.t0.set i nowSec
      dur := st.dur.set i (rippleDur energy)
      rmax := st.rmax.set i (rippleRmax energy) }

/-- The expiry test `nowSec - t0 > dur` of `cullRipples`. -/
def rippleExpired (st : RippleState) (nowSec : ℚ) (i : ℕ) : Bool :=
  decide (st.dur.getD i 0 < nowSec - st.t0.getD i 0)

/-- `cullRipples(nowSec)` of `JourneyScene`: walk `live` from the back,
splice out every expired slot, park its centre off-screen and push the index
back on the free stack.  The backward-splice loop keeps exactly the
non-expired entries in order and pushes the expired indices in reverse
`live` order. -/
def cullRipples (st : RippleState) (nowSec : ℚ) : RippleState :=
  { st with
    live := st.live.filter fun i => ! rippleExpired st nowSec i
    pool := st.pool ++ (st.live.filter fun i => rippleExpired st nowSec i).reverse
    center := (st.live.filter fun i => rippleExpired st nowSec i).foldl
      (fun c i => c.set i (999, 999)) st.center }

/-- The pool as built by `setupRipples`: `maxRipples = 96` free slots pushed
in order, no live ripple, all attributes at their initial values. -/
def initRipples : RippleState :=
  { pool := List.range 96
    live := []
    center := List.replicate 96 (999, 999)
    t0 := List.replicate 96 (10 ^ 9)
    dur := List.replicate 96 1
    rmax := List.replicate 96 0 }

/-- A step of the pool: one `spawnRipple` or one `cullRipples` call. -/
inductive RippleOp where
  | spawn (cx cy energy nowSec : ℚ)
  | cull (nowSec : ℚ)

def applyRippleOp (st : RippleState) : RippleOp → RippleState
  | .spawn cx cy energy nowSec => spawnRipple st cx cy energy nowSec
  | .cull nowSec => cullRipples st nowSec

/-- The pool state after an arbitrary call sequence, starting from
`setupRipples`. -/
def runRipples (ops : List RippleOp) : RippleState :=
  ops.foldl applyRippleOp initRipples

/-- Pool invariant: the free stack and the live list together hold exactly
the 96 slot indices. -/
def poolInv (st : RippleState) : Prop :=
  (st.pool ++ st.live).Perm (List.range 96)

lemma poolInv_init : poolInv initRipples := by
  simp [poolInv, initRipples]

lemma poolInv_spawn {st : RippleState} (h : poolInv st) (cx cy energy nowSec : ℚ) :
    poolInv (spawnRipple st cx cy energy nowSec) := by
  unfold spawnRipple
  cases hp : st.pool.getLast? with
  | none => exact h
  | some i =>
    unfold poolInv at h ⊢
    simp only
    have hsplit : st.pool.dropLast ++ [i] = st.pool :=
      List.dropLast_append_getLast? i hp
    calc st.pool.dropLast ++ (st.live ++ [i])
        ~ st.pool.dropLast ++ ([i] ++ st.live) :=
          List.Perm.append_left _ (List.perm_append_comm)
      _ = (st.pool.dropLast ++ [i]) ++ st.live := by rw [List.append_assoc]
      _ = st.pool ++ st.live := by rw [hsplit]
      _ ~ List.range 96 := h

lemma poolInv_cull {st : RippleState} (h : poolInv st) (nowSec : ℚ) :
    poolInv (cullRipples st nowSec) := by
  unfold poolInv at h ⊢
  unfold cullRipples
  simp only
  calc st.pool ++ (st.live.filter fun i => rippleExpired st nowSec i).reverse ++
        (st.live.filter fun i => ! rippleExpired st nowSec i)
      = st.pool ++ ((st.live.filter fun i => rippleExpired st nowSec i).reverse ++
        (st.live.filter fun i => ! rippleExpired st nowSec i)) := by
        rw [List.append_assoc]
    _ ~ st.pool ++ ((st.live.filter fun i => rippleExpired st nowSec i) ++
        (st.live.filter fun i => ! rippleExpired st nowSec i)) :=
        List.Perm.append_left _
          (List.Perm.append_right _ (List.reverse_perm _))
    _ ~ st.pool ++ st.live :=
        List.Perm.append_left _
          (List.filter_append_perm (fun i => rippleExpired st nowSec i) st.live)
    _ ~ List.range 96 := h

lemma poolInv_run (ops : List RippleOp) : poolInv (runRipples ops) := by
  unfold runRipples
  have hgen : ∀ (l : List RippleOp) (st : RippleState), poolInv st →
      poolInv (l.foldl applyRippleOp st) := by
    intro l
    induction l with
    | nil => intro st h; exact h
    | cons op t ih =>
      intro st h
      apply ih
      cases op with
      | spawn cx cy energy nowSec => exact poolInv_spawn h cx cy energy nowSec
      | cull nowSec => exact poolInv_cull h nowSec
  exact hgen ops initRipples poolInv_init

/-- C5. Pool safety of `JourneyScene`: after any sequence of `spawnRipple`
and `cullRipples` calls the live-entry count never exceeds the fixed
capacity 96; spawning with the free pool exhausted is a silent no-op; and a
cull at a time past every live entry's expiry empties `live` and returns all
96 slots to the free pool. -/
theorem ripplePool_capacity_and_reset (ops : List RippleOp) :
    (runRipples ops).live.length ≤ 96 ∧
    (∀ (st : RippleState) (cx cy energy nowSec : ℚ), st.pool = [] →
      spawnRipple st cx cy energy nowSec = st) ∧
    (∀ nowSec : ℚ,
      (∀ i ∈ (runRipples ops).live,
        (runRipples ops).dur.getD i 0 < nowSec - (runRipples ops).t0.getD i 0) →
      (cullRipples (runRipples ops) nowSec).live = [] ∧
      ((cullRipples (runRipples ops) nowSec).pool).Perm (List.range 96)) := by
  have hinv := poolInv_run ops
  refine ⟨?_, ?_, ?_⟩
  · have hlen : ((runRipples ops).pool ++ (runRipples ops).live).length =
        (List.range 96).length := hinv.length_eq
    simp only [List.length_append, List.length_range] at hlen
    omega
  · intro st cx cy energy nowSec hempty
    unfold spawnRipple
    rw [hempty]
    rfl
  · intro nowSec hall
    have hfilt : ((runRipples ops).live.filter
        fun i => rippleExpired (runRipples ops) nowSec i) = (runRipples ops).live := by
      apply List.filter_eq_self.2
      intro i hi
      unfold rippleExpired
      exact decide_eq_true (hall i hi)
    constructor
    · unfold cullRipples
      simp only
      apply List.filter_eq_nil_iff.2
      intro i hi
      have hdec : rippleExpired (runRipples ops) nowSec i = true :=
        decide_eq_true (hall i hi)
      simp [hdec]
    · unfold cullRipples
      simp only
      calc (runRipples ops).pool ++ ((runRipples ops).live.filter
            fun i => rippleExpired (runRipples ops) nowSec i).reverse
          = (runRipples ops).pool ++ (runRipples ops).live.reverse := by rw [hfilt]
        _ ~ (runRipples ops).pool ++ (runRipples ops).live :=
            List.Perm.append_left _ (List.reverse_perm _)
        _ ~ List.range 96 := hinv

/-- Concrete instance of the C5 theorem: the sequence of zero calls keeps the
live count within capacity; spawning on an exhausted pool is the identity;
and culling the empty live list leaves all 96 slots free. -/
theorem ripplePool_capacity_and_reset_witness :
    (runRipples []).live.length ≤ 96 ∧
    spawnRipple (RippleState.mk [] [42] [] [] [] []) 0 0 1 5 =
      RippleState.mk [] [42] [] [] [] [] ∧
    ((cullRipples (runRipples []) 5).live = [] ∧
      ((cullRipples (runRipples []) 5).pool).Perm (List.range 96)) := by
  have h := ripplePool_capacity_and_reset []
  exact ⟨h.1, h.2.1 (RippleState.mk [] [42] [] [] [] []) 0 0 1 5 rfl,
    h.2.2 5 (by simp [runRipples, initRipples])⟩

/-- `rmax = (320 + Math.random() * 480) * (0.6 + energy)` from `spawnRipple`
of the other `JourneyScene` (`src/unnamed/part_008`), with the random draw
given as `r`. -/
def rippleRmaxB (r energy : ℚ) : ℚ := (320 + r * 480) * (3 / 5 + energy)

/-- `dur = 0.9 + Math.random() * 0.8` from `spawnRipple` of the other
`JourneyScene` (`src/unnamed/part_008`), with the random draw given as `r`.
The `energy` argument of `spawnRipple` does not enter this formula at all. -/
def rippleDurB (r : ℚ) : ℚ := 9 / 10 + r * (4 / 5)

/-- C6 counterexample.  A power-`p` response with `p ≥ 2` multiplies the
energy-dependent gain by at least `2^2 = 4` when the energy doubles from
`1/2` to `1`.  In the `spawnRipple` of `src/unnamed/part_007` the duration
`dur = 0.6 + 1.4 * energy` is affine, so its gain only doubles; and in the
`spawnRipple` of `src/unnamed/part_008` the radius
`rmax = (320 + rand * 480) * (0.6 + energy)` is affine in energy (shown here
at the random draw `r = 0`), so its gain also only doubles — while that
implementation's duration `0.9 + rand * 0.8` never reads the energy
argument.  So neither cited implementation has both responses super-linear. -/
theorem rippleDur_not_superlinear :
    rippleDur 1 - rippleDur 0 < 4 * (rippleDur (1 / 2) - rippleDur 0) ∧
    rippleRmaxB 0 1 - rippleRmaxB 0 0 < 4 * (rippleRmaxB 0 (1 / 2) - rippleRmaxB 0 0) := by
  unfold rippleDur rippleRmaxB
  constructor <;> norm_num

/-- C6 (amended). Of the two cited `spawnRipple` implementations, only the
radius of the one in `src/unnamed/part_007` scales super-linearly with the
energy argument (as the fourth power: doubling the energy multiplies the
energy-dependent radius gain by 16); its duration scales only linearly
(doubling the energy doubles the duration gain), and in the implementation
of `src/unnamed/part_008` nothing scales super-linearly: the radius is
affine in energy (doubling the energy doubles the radius gain, for every
random draw `r`), and the duration is a function of the random draw alone,
independent of energy. -/
theorem rippleRmax_superlinear_rippleDur_linear (e r : ℚ) :
    rippleRmax (2 * e) - rippleRmax 0 = 16 * (rippleRmax e - rippleRmax 0) ∧
    rippleDur (2 * e) - rippleDur 0 = 2 * (rippleDur e - rippleDur 0) ∧
    rippleRmaxB r (2 * e) - rippleRmaxB r 0 = 2 * (rippleRmaxB r e - rippleRmaxB r 0) ∧
    rippleDurB r = 9 / 10 + r * (4 / 5) := by
  unfold rippleRmax rippleDur rippleRmaxB rippleDurB
  refine ⟨?_, ?_, ?_, rfl⟩ <;> ring

/-- A particle of the ambient 2D field (`src/unnamed/part_005`,
`EmotionRenderer`): position, velocity and size. -/
structure Particle where
  x : ℚ
  y : ℚ
  vx : ℚ
  vy : ℚ
  s : ℚ
  deriving DecidableEq

/-- `ensureParticles(particles, n, w, h)` from `EmotionRenderer`
(`src/unnamed/part_005`): push newly randomized particles until the length
reaches `n`, or pop from the end until it drops to `n`.  The random draws are
modelled by the supply `fresh`, giving the particle appended at each growth
step. -/
def ensureParticles (particles : List Particle) (n : ℕ) (fresh : ℕ → Particle) :
    List Particle :=
  if particles.length < n then
    particles ++ (List.range (n - particles.length)).map fresh
  else
    particles.take n

/-- C9. `ensureParticles` is idempotent at the target: a list already of
length `n` is returned unchanged, whatever the random supply would have
produced. -/
theorem ensureParticles_idempotent (particles : List Particle) (n : ℕ)
    (fresh : ℕ → Particle) (h : particles.length = n) :
    ensureParticles particles n fresh = particles := by
  unfold ensureParticles
  rw [if_neg (by omega), ← h, List.take_length]

/-- Concrete instance of the C9 theorem: a two-particle list with target 2 is
returned unchanged. -/
theorem ensureParticles_idempotent_witness :
    ensureParticles [⟨1, 2, 0, 0, 1⟩, ⟨3, 4, 0, 0, 1⟩] 2 (fun _ => ⟨9, 9, 9, 9, 9⟩) =
      [⟨1, 2, 0, 0, 1⟩, ⟨3, 4, 0, 0, 1⟩] :=
  ensureParticles_idempotent [⟨1, 2, 0, 0, 1⟩, ⟨3, 4, 0, 0, 1⟩] 2
    (fun _ => ⟨9, 9, 9, 9, 9⟩) rfl

/-- The velocity random walk of the particle loop in `renderEmotionScene`:
`p.vx += (Math.random() - 0.5) * 0.02 * (0.5 + tre)`, with the random draw
given as `r`. -/
def tickVel (v r tre : ℚ) : ℚ :=
  v + (r - 1 / 2) * (2 / 100) * (1 / 2 + tre)

/-- The per-particle body of the update loop in `renderEmotionScene`
(`src/unnamed/part_005`): random-walk the velocity, integrate the position
scaled by the mid term, then wrap each coordinate once
(`if (p.x < 0) p.x += w; if (p.x > w) p.x -= w;`, and likewise for `y`). -/
def tickParticle (p : Particle) (r1 r2 tre mid w h : ℚ) : Particle :=
  { x :=
      if p.x + tickVel p.vx r1 tre * (3 / 5 + mid * (7 / 5)) < 0 then
        if w < p.x + tickVel p.vx r1 tre * (3 / 5 + mid * (7 / 5)) + w then
          p.x + tickVel p.vx r1 tre * (3 / 5 + mid * (7 / 5)) + w - w
        else p.x + tickVel p.vx r1 tre * (3 / 5 + mid * (7 / 5)) + w
      else
        if w < p.x + tickVel p.vx r1 tre * (3 / 5 + mid * (7 / 5)) then
          p.x + tickVel p.vx r1 tre * (3 / 5 + mid * (7 / 5)) - w
        else p.x + tickVel p.vx r1 tre * (3 / 5 + mid * (7 / 5))
    y :=
      if p.y + tickVel p.vy r2 tre * (3 / 5 + mid * (7 / 5)) < 0 then
        if h < p.y + tickVel p.vy r2 tre * (3 / 5 + mid * (7 / 5)) + h then
          p.y + tickVel p.vy r2 tre * (3 / 5 + mid * (7 / 5)) + h - h
        else p.y + tickVel p.vy r2 tre * (3 / 5 + mid * (7 / 5)) + h
      else
        if h < p.y + tickVel p.vy r2 tre * (3 / 5 + mid * (7 / 5)) then
          p.y + tickVel p.vy r2 tre * (3 / 5 + mid * (7 / 5)) - h
        else p.y + tickVel p.vy r2 tre * (3 / 5 + mid * (7 / 5))
    vx := tickVel p.vx r1 tre
    vy := tickVel p.vy r2 tre
    s := p.s }

/-- C7 counterexample.  The particle at `x = 99.4` with velocity `1` on a
100-wide canvas (neutral random draw `r = 1/2`, silent spectrum so
`tre = mid = 0`) integrates to exactly `x = 100 = width`, and the wrap
(`p.x > canvasWidth` being strict) leaves it there — outside the claimed
half-open interval `[0, width)`. -/
theorem tickParticle_coord_not_lt_width :
    ¬ (tickParticle ⟨497 / 5, 0, 1, 0, 1⟩ (1 / 2) (1 / 2) 0 0 100 100).x < 100 := by
  have hx : (tickParticle ⟨497 / 5, 0, 1, 0, 1⟩ (1 / 2) (1 / 2) 0 0 100 100).x = 100 := by
    simp only [tickParticle, tickVel]
    norm_num
  rw [hx]
  exact lt_irrefl 100

/-- C7 (amended). The single-correction wrap of `renderEmotionScene` keeps a
particle's coordinates in the closed box `[0, width] × [0, height]` — the
edge value `width` itself is reachable, so the half-open interval of the
claim fails — and only under the proviso that the per-tick displacement of
each coordinate is at most one canvas extent; larger displacements escape
the box entirely. -/
theorem tickParticle_wraps_into_closed_box (p : Particle) (r1 r2 tre mid w h : ℚ)
    (hx0 : 0 ≤ p.x) (hxw : p.x ≤ w) (hy0 : 0 ≤ p.y) (hyh : p.y ≤ h)
    (hdx : |tickVel p.vx r1 tre * (3 / 5 + mid * (7 / 5))| ≤ w)
    (hdy : |tickVel p.vy r2 tre * (3 / 5 + mid * (7 / 5))| ≤ h) :
    0 ≤ (tickParticle p r1 r2 tre mid w h).x ∧
    (tickParticle p r1 r2 tre mid w h).x ≤ w ∧
    0 ≤ (tickParticle p r1 r2 tre mid w h).y ∧
    (tickParticle p r1 r2 tre mid w h).y ≤ h := by
  rw [abs_le] at hdx hdy
  unfold tickParticle
  simp only
  refine ⟨?_, ?_, ?_, ?_⟩ <;> split_ifs <;> linarith

/-- Concrete instance of the C7 amended theorem: a mid-canvas particle with a
small velocity stays inside the closed box. -/
theorem tickParticle_wraps_into_closed_box_witness :
    0 ≤ (tickParticle ⟨50, 50, 1, 1, 1⟩ (1 / 2) (1 / 2) 0 0 100 100).x ∧
    (tickParticle ⟨50, 50, 1, 1, 1⟩ (1 / 2) (1 / 2) 0 0 100 100).x ≤ 100 ∧
    0 ≤ (tickParticle ⟨50, 50, 1, 1, 1⟩ (1 / 2) (1 / 2) 0 0 100 100).y ∧
    (tickParticle ⟨50, 50, 1, 1, 1⟩ (1 / 2) (1 / 2) 0 0 100 100).y ≤ 100 :=
  tickParticle_wraps_into_closed_box ⟨50, 50, 1, 1, 1⟩ (1 / 2) (1 / 2) 0 0 100 100
    (by norm_num) (by norm_num) (by norm_num) (by norm_num)
    (by rw [tickVel, abs_le]; constructor <;> norm_num)
    (by rw [tickVel, abs_le]; constructor <;> norm_num)

/-- One spring axis of the lens physics (`src/unnamed/part_008`,
`renderCanvas`): current position and velocity for one of x, y, radius. -/
structure LensAxis where
  pos : ℚ
  vel : ℚ
  deriving DecidableEq

/-- One physics tick of the lens spring with the configured constants
`stiffness = 0.06`, `damping = 0.7`:
`force = (target - pos) * stiffness; vel = (vel + force) * damping;
pos += vel`. -/
def lensStep (target : ℚ) (s : LensAxis) : LensAxis :=
  { pos := s.pos + (s.vel + (target - s.pos) * (6 / 100)) * (7 / 10)
    vel := (s.vel + (target - s.pos) * (6 / 100)) * (7 / 10) }

/-- `n` spring ticks with the target held constant. -/
def lensIter (target : ℚ) (s : LensAxis) : ℕ → LensAxis
  | 0 => s
  | n + 1 => lensStep target (lensIter target s n)

/-- The quadratic energy of a lens axis relative to its target.  It is
positive definite and contracts by exactly `7/10` under `lensStep`, which is
what replaces the claimed tick-to-tick monotonicity of the distance. -/
def lensV (target : ℚ) (s : LensAxis) : ℚ :=
  42 * (target - s.pos) ^ 2 - 258 * (target - s.pos) * s.vel + 700 * s.vel ^ 2

/-- C8 counterexample.  Starting at rest at distance 1 from a constant
target, the distance to the target does not decrease monotonically: the
spring overshoots, and between tick 18 and tick 19 the (squared) distance to
the target strictly increases. -/
theorem lens_distance_not_monotone :
    (1 - (lensIter 1 (LensAxis.mk 0 0) 18).pos) ^ 2 <
      (1 - (lensIter 1 (LensAxis.mk 0 0) 19).pos) ^ 2 := by
  have g0 : lensIter 1 (LensAxis.mk 0 0) 0 = LensAxis.mk 0 0 := rfl
  have s1 : lensStep 1 (LensAxis.mk (0 : ℚ) (0 : ℚ)) = LensAxis.mk (21 / 500 : ℚ) (21 / 500 : ℚ) := by
    simp only [lensStep]
    norm_num
  have g1 : lensIter 1 (LensAxis.mk 0 0) 1 = LensAxis.mk (21 / 500 : ℚ) (21 / 500 : ℚ) := by
    have e : lensIter 1 (LensAxis.mk 0 0) 1 = lensStep 1 (lensIter 1 (LensAxis.mk 0 0) 0) := rfl
    rw [e, g0, s1]
  have s2 : lensStep 1 (LensAxis.mk (21 / 500 : ℚ) (21 / 500 : ℚ)) = LensAxis.mk (27909 / 250000 : ℚ) (17409 / 250000 : ℚ) := by
    simp only [lensStep]
    norm_num
  have g2 : lensIter 1 (LensAxis.mk 0 0) 2 = LensAxis.mk (27909 / 250000 : ℚ) (17409 / 250000 : ℚ) := by
    have e : lensIter 1 (LensAxis.mk 0 0) 2 = lensStep 1 (lensIter 1 (LensAxis.mk 0 0) 1) := rfl
    rw [e, g1, s2]
  have s3 : lensStep 1 (LensAxis.mk (27909 / 250000 : ℚ) (17409 / 250000 : ℚ)) = LensAxis.mk (24711561 / 125000000 : ℚ) (10757061 / 125000000 : ℚ) := by
    simp only [lensStep]
    norm_num
  have g3 : lensIter 1 (LensAxis.mk 0 0) 3 = LensAxis.mk (24711561 / 125000000 : ℚ) (10757061 / 125000000 : ℚ) := by
    have e : lensIter 1 (LensAxis.mk 0 0) 3 = lensStep 1 (lensIter 1 (LensAxis.mk 0 0) 2) := rfl
    rw [e, g2, s3]
  have s4 : lensStep 1 (LensAxis.mk (24711561 / 125000000 : ℚ) (10757061 / 125000000 : ℚ)) = LensAxis.mk (18226809069 / 62500000000 : ℚ) (5871028569 / 62500000000 : ℚ) := by
    simp only [lensStep]
    norm_num
  have g4 : lensIter 1 (LensAxis.mk 0 0) 4 = LensAxis.mk (18226809069 / 62500000000 : ℚ) (5871028569 / 62500000000 : ℚ) := by
    have e : lensIter 1 (LensAxis.mk 0 0) 4 = lensStep 1 (lensIter 1 (LensAxis.mk 0 0) 3) := rfl
    rw [e, g3, s4]
  have s5 : lensStep 1 (LensAxis.mk (18226809069 / 62500000000 : ℚ) (5871028569 / 62500000000 : ℚ)) = LensAxis.mk (12098001543201 / 31250000000000 : ℚ) (2984597008701 / 31250000000000 : ℚ) := by
    simp only [lensStep]
    norm_num
  have g5 : lensIter 1 (LensAxis.mk 0 0) 5 = LensAxis.mk (12098001543201 / 31250000000000 : ℚ) (2984597008701 / 31250000000000 : ℚ) := by
    have e : lensIter 1 (LensAxis.mk 0 0) 5 = lensStep 1 (lensIter 1 (LensAxis.mk 0 0) 4) := rfl
    rw [e, g4, s5]
  have s6 : lensStep 1 (LensAxis.mk (12098001543201 / 31250000000000 : ℚ) (2984597008701 / 31250000000000 : ℚ)) = LensAxis.mk (7495801692238629 / 15625000000000000 : ℚ) (1446800920638129 / 15625000000000000 : ℚ) := by
    simp only [lensStep]
    norm_num
  have g6 : lensIter 1 (LensAxis.mk 0 0) 6 = LensAxis.mk (7495801692238629 / 15625000000000000 : ℚ) (1446800920638129 / 15625000000000000 : ℚ) := by
    have e : lensIter 1 (LensAxis.mk 0 0) 6 = lensStep 1 (lensIter 1 (LensAxis.mk 0 0) 5) := rfl
    rw [e, g5, s6]
  have s7 : lensStep 1 (LensAxis.mk (7495801692238629 / 15625000000000000 : ℚ) (1446800920638129 / 15625000000000000 : ℚ)) = LensAxis.mk (4424994332805648441 / 7812500000000000000 : ℚ) (677093486686333941 / 7812500000000000000 : ℚ) := by
    simp only [lensStep]
    norm_num
  have g7 : lensIter 1 (LensAxis.mk 0 0) 7 = LensAxis.mk (4424994332805648441 / 7812500000000000000 : ℚ) (677093486686333941 / 7812500000000000000 : ℚ) := by
    have e : lensIter 1 (LensAxis.mk 0 0) 7 = lensStep 1 (lensIter 1 (LensAxis.mk 0 0) 6) := rfl
    rw [e, g6, s7]
  have s8 : lensStep 1 (LensAxis.mk (4424994332805648441 / 7812500000000000000 : ℚ) (677093486686333941 / 7812500000000000000 : ℚ)) = LensAxis.mk (2520617505754122482589 / 3906250000000000000000 : ℚ) (308120339351298262089 / 3906250000000000000000 : ℚ) := by
    simp only [lensStep]
    norm_num
  have g8 : lensIter 1 (LensAxis.mk 0 0) 8 = LensAxis.mk (2520617505754122482589 / 3906250000000000000000 : ℚ) (308120339351298262089 / 3906250000000000000000 : ℚ) := by
    have e : lensIter 1 (LensAxis.mk 0 0) 8 = lensStep 1 (lensIter 1 (LensAxis.mk 0 0) 7) := rfl
    rw [e, g7, s8]
  have s9 : lensStep 1 (LensAxis.mk (2520617505754122482589 / 3906250000000000000000 : ℚ) (308120339351298262089 / 3906250000000000000000 : ℚ)) = LensAxis.mk (1397249154029179060891281 / 1953125000000000000000000 : ℚ) (136940401152117819596781 / 1953125000000000000000000 : ℚ) := by
    simp only [lensStep]
    norm_num
  have g9 : lensIter 1 (LensAxis.mk 0 0) 9 = LensAxis.mk (1397249154029179060891281 / 1953125000000000000000000 : ℚ) (136940401152117819596781 / 1953125000000000000000000 : ℚ) := by
    have e : lensIter 1 (LensAxis.mk 0 0) 9 = lensStep 1 (lensIter 1 (LensAxis.mk 0 0) 8) := rfl
    rw [e, g8, s9]
  have s10 : lensStep 1 (LensAxis.mk (1397249154029179060891281 / 1953125000000000000000000 : ℚ) (136940401152117819596781 / 1953125000000000000000000 : ℚ)) = LensAxis.mk (758227110183218007025796949 / 976562500000000000000000000 : ℚ) (59602533168628476580156449 / 976562500000000000000000000 : ℚ) := by
    simp only [lensStep]
    norm_num
  have g10 : lensIter 1 (LensAxis.mk 0 0) 10 = LensAxis.mk (758227110183218007025796949 / 976562500000000000000000000 : ℚ) (59602533168628476580156449 / 976562500000000000000000000 : ℚ) := by
    have e : lensIter 1 (LensAxis.mk 0 0) 10 = lensStep 1 (lensIter 1 (LensAxis.mk 0 0) 9) := rfl
    rw [e, g9, s10]
  have s11 : lensStep 1 (LensAxis.mk (758227110183218007025796949 / 976562500000000000000000000 : ℚ) (59602533168628476580156449 / 976562500000000000000000000 : ℚ)) = LensAxis.mk (404559484886781392168411495721 / 488281250000000000000000000000 : ℚ) (25445929795172388655513021221 / 488281250000000000000000000000 : ℚ) := by
    simp only [lensStep]
    norm_num
  have g11 : lensIter 1 (LensAxis.mk 0 0) 11 = LensAxis.mk (404559484886781392168411495721 / 488281250000000000000000000000 : ℚ) (25445929795172388655513021221 / 488281250000000000000000000000 : ℚ) := by
    have e : lensIter 1 (LensAxis.mk 0 0) 11 = lensStep 1 (lensIter 1 (LensAxis.mk 0 0) 10) := rfl
    rw [e, g10, s11]
  have s12 : lensStep 1 (LensAxis.mk (404559484886781392168411495721 / 488281250000000000000000000000 : ℚ) (25445929795172388655513021221 / 488281250000000000000000000000 : ℚ)) = LensAxis.mk (212943974939078622878098663877709 / 244140625000000000000000000000000 : ℚ) (10664232495687926793892916017209 / 244140625000000000000000000000000 : ℚ) := by
    simp only [lensStep]
    norm_num
  have g12 : lensIter 1 (LensAxis.mk 0 0) 12 = LensAxis.mk (212943974939078622878098663877709 / 244140625000000000000000000000000 : ℚ) (10664232495687926793892916017209 / 244140625000000000000000000000000 : ℚ) := by
    have e : lensIter 1 (LensAxis.mk 0 0) 12 = lensStep 1 (lensIter 1 (LensAxis.mk 0 0) 11) := rfl
    rw [e, g11, s12]
  have s13 : lensStep 1 (LensAxis.mk (212943974939078622878098663877709 / 244140625000000000000000000000000 : ℚ) (10664232495687926793892916017209 / 244140625000000000000000000000000 : ℚ)) = LensAxis.mk (110859598494309434736471780603445761 / 122070312500000000000000000000000000 : ℚ) (4387611024770123297422448664591261 / 122070312500000000000000000000000000 : ℚ) := by
    simp only [lensStep]
    norm_num
  have g13 : lensIter 1 (LensAxis.mk 0 0) 13 = LensAxis.mk (110859598494309434736471780603445761 / 122070312500000000000000000000000000 : ℚ) (4387611024770123297422448664591261 / 122070312500000000000000000000000000 : ℚ) := by
    have e : lensIter 1 (LensAxis.mk 0 0) 13 = lensStep 1 (lensIter 1 (LensAxis.mk 0 0) 12) := rfl
    rw [e, g12, s13]
  have s14 : lensStep 1 (LensAxis.mk (110859598494309434736471780603445761 / 122070312500000000000000000000000000 : ℚ) (4387611024770123297422448664591261 / 122070312500000000000000000000000000 : ℚ)) = LensAxis.mk (57200888099943762392867839941657460869 / 61035156250000000000000000000000000000 : ℚ) (1771088852789045024631949639934580369 / 61035156250000000000000000000000000000 : ℚ) := by
    simp only [lensStep]
    norm_num
  have g14 : lensIter 1 (LensAxis.mk 0 0) 14 = LensAxis.mk (57200888099943762392867839941657460869 / 61035156250000000000000000000000000000 : ℚ) (1771088852789045024631949639934580369 / 61035156250000000000000000000000000000 : ℚ) := by
    have e : lensIter 1 (LensAxis.mk 0 0) 14 = lensStep 1 (lensIter 1 (LensAxis.mk 0 0) 13) := rfl
    rw [e, g13, s14]
  have s15 : lensStep 1 (LensAxis.mk (57200888099943762392867839941657460869 / 61035156250000000000000000000000000000 : ℚ) (1771088852789045024631949639934580369 / 61035156250000000000000000000000000000 : ℚ)) = LensAxis.mk (29300844779599227944804877706031026885401 / 30517578125000000000000000000000000000000 : ℚ) (700400729627346748370957735202296450901 / 30517578125000000000000000000000000000000 : ℚ) := by
    simp only [lensStep]
    norm_num
  have g15 : lensIter 1 (LensAxis.mk 0 0) 15 = LensAxis.mk (29300844779599227944804877706031026885401 / 30517578125000000000000000000000000000000 : ℚ) (700400729627346748370957735202296450901 / 30517578125000000000000000000000000000000 : ℚ) := by
    have e : lensIter 1 (LensAxis.mk 0 0) 15 = lensStep 1 (lensIter 1 (LensAxis.mk 0 0) 14) := rfl
    rw [e, g14, s15]
  have s16 : lensStep 1 (LensAxis.mk (29300844779599227944804877706031026885401 / 30517578125000000000000000000000000000000 : ℚ) (700400729627346748370957735202296450901 / 30517578125000000000000000000000000000000 : ℚ)) = LensAxis.mk (14921114045422601547491371628509665635922429 / 15258789062500000000000000000000000000000000 : ℚ) (270691655622987575088932775494152193221929 / 15258789062500000000000000000000000000000000 : ℚ) := by
    simp only [lensStep]
    norm_num
  have g16 : lensIter 1 (LensAxis.mk 0 0) 16 = LensAxis.mk (14921114045422601547491371628509665635922429 / 15258789062500000000000000000000000000000000 : ℚ) (270691655622987575088932775494152193221929 / 15258789062500000000000000000000000000000000 : ℚ) := by
    have e : lensIter 1 (LensAxis.mk 0 0) 16 = lensStep 1 (lensIter 1 (LensAxis.mk 0 0) 15) := rfl
    rw [e, g15, s16]
  have s17 : lensStep 1 (LensAxis.mk (14921114045422601547491371628509665635922429 / 15258789062500000000000000000000000000000000 : ℚ) (270691655622987575088932775494152193221929 / 15258789062500000000000000000000000000000000 : ℚ)) = LensAxis.mk (7562390277537971792529493481479083107234518641 / 7629394531250000000000000000000000000000000000 : ℚ) (101833254826671018783807667224250289273304141 / 7629394531250000000000000000000000000000000000 : ℚ) := by
    simp only [lensStep]
    norm_num
  have g17 : lensIter 1 (LensAxis.mk 0 0) 17 = LensAxis.mk (7562390277537971792529493481479083107234518641 / 7629394531250000000000000000000000000000000000 : ℚ) (101833254826671018783807667224250289273304141 / 7629394531250000000000000000000000000000000000 : ℚ) := by
    have e : lensIter 1 (LensAxis.mk 0 0) 17 = lensStep 1 (lensIter 1 (LensAxis.mk 0 0) 16) := rfl
    rw [e, g16, s17]
  have s18 : lensStep 1 (LensAxis.mk (7562390277537971792529493481479083107234518641 / 7629394531250000000000000000000000000000000000 : ℚ) (101833254826671018783807667224250289273304141 / 7629394531250000000000000000000000000000000000 : ℚ)) = LensAxis.mk (3818243867286273345195960061156968409610990878389 / 3814697265625000000000000000000000000000000000000 : ℚ) (37048728517287448931213320417426855993731557889 / 3814697265625000000000000000000000000000000000000 : ℚ) := by
    simp only [lensStep]
    norm_num
  have g18 : lensIter 1 (LensAxis.mk 0 0) 18 = LensAxis.mk (3818243867286273345195960061156968409610990878389 / 3814697265625000000000000000000000000000000000000 : ℚ) (37048728517287448931213320417426855993731557889 / 3814697265625000000000000000000000000000000000000 : ℚ) := by
    have e : lensIter 1 (LensAxis.mk 0 0) 18 = lensStep 1 (lensIter 1 (LensAxis.mk 0 0) 17) := rfl
    rw [e, g17, s18]
  have s19 : lensStep 1 (LensAxis.mk (3818243867286273345195960061156968409610990878389 / 3814697265625000000000000000000000000000000000000 : ℚ) (37048728517287448931213320417426855993731557889 / 3814697265625000000000000000000000000000000000000 : ℚ)) = LensAxis.mk (1922014509989300539474789531440287267801470676009481 / 1907348632812500000000000000000000000000000000000000 : ℚ) (12892576346163866876809500861803062995975236814981 / 1907348632812500000000000000000000000000000000000000 : ℚ) := by
    simp only [lensStep]
    norm_num
  have g19 : lensIter 1 (LensAxis.mk 0 0) 19 = LensAxis.mk (1922014509989300539474789531440287267801470676009481 / 1907348632812500000000000000000000000000000000000000 : ℚ) (12892576346163866876809500861803062995975236814981 / 1907348632812500000000000000000000000000000000000000 : ℚ) := by
    have e : lensIter 1 (LensAxis.mk 0 0) 19 = lensStep 1 (lensIter 1 (LensAxis.mk 0 0) 18) := rfl
    rw [e, g18, s19]
  rw [g18, g19]
  norm_num

/-- C8 (amended). With the configured stiffness `0.06` and damping `0.7` and
the target held constant, the lens position converges to the target, but not
by a tick-to-tick monotone distance: instead the positive-definite quadratic
energy `lensV` contracts by exactly the factor `7/10` on every tick, so after
`n` ticks the energy is `(7/10)^n` times the initial energy, and the squared
distance to the target is bounded by `700/12759` times that energy — a
geometric envelope that bounds every overshoot by a fixed multiple of the
initial distance. -/
theorem lensV_contraction (target : ℚ) (s : LensAxis) :
    lensV target (lensStep target s) = (7 / 10) * lensV target s ∧
    0 ≤ lensV target s ∧
    (12759 / 700) * (target - s.pos) ^ 2 ≤ lensV target s ∧
    ∀ n : ℕ, lensV target (lensIter target s n) = (7 / 10) ^ n * lensV target s := by
  refine ⟨?_, ?_, ?_, ?_⟩
  · unfold lensV lensStep
    simp only
    ring
  · unfold lensV
    nlinarith [sq_nonneg (42 * (target - s.pos) - 129 * s.vel), sq_nonneg s.vel,
      sq_nonneg (target - s.pos)]
  · unfold lensV
    nlinarith [sq_nonneg (129 * (target - s.pos) - 700 * s.vel)]
  · intro n
    induction n with
    | zero => simp [lensIter]
    | succ m ih =>
      have hstep : lensV target (lensStep target (lensIter target s m)) =
          (7 / 10) * lensV target (lensIter target s m) := by
        unfold lensV lensStep
        simp only
        ring
      calc lensV target (lensIter target s (m + 1))
          = lensV target (lensStep target (lensIter target s m)) := rfl
        _ = (7 / 10) * lensV target (lensIter target s m) := hstep
        _ = (7 / 10) * ((7 / 10) ^ m * lensV target s) := by rw [ih]
        _ = (7 / 10) ^ (m + 1) * lensV target s := by ring

/-- The bands monitored by `detectAndSpawnRipples`. -/
inductive Band where
  | bass
  | mid
  | high
  deriving DecidableEq

/-- Detection state of `JourneyScene.detectAndSpawnRipples`
(`src/unnamed/part_007`): per-band exponential moving averages, previous-tick
band values, the single shared `cooldown` timer, and the tempo state touched
by `updateTempo` on a kick. -/
structure DetectState where
  tempo : TempoState
  bassEma : ℚ
  midEma : ℚ
  highEma : ℚ
  prevBass : ℚ
  prevMid : ℚ
  prevHigh : ℚ
  cooldown : ℚ

/-- The EMA update `ema += (x - ema) * 0.18` at the top of
`detectAndSpawnRipples`. -/
def emaStep (ema x : ℚ) : ℚ := ema + (x - ema) * (18 / 100)

/-- The cooldown decrement `if (this.cooldown > 0) this.cooldown -= dtMs`
performed before the branch chain. -/
def decCooldown (cooldown dtMs : ℚ) : ℚ :=
  if 0 < cooldown then cooldown - dtMs else cooldown

/-- `isStrongKick`: the three-way kick disjunction, with `bassAccel`
computed against the already-updated EMA. -/
def isStrongKick (st : DetectState) (bass : ℚ) : Prop :=
  (4 / 100 < bass - emaStep st.bassEma bass ∧ 15 / 100 < bass) ∨
  (st.prevBass * (115 / 100) < bass ∧ 18 / 100 < bass ∧
    15 / 1000 < bass - emaStep st.bassEma bass) ∨
  (3 / 10 < bass ∧ 1 / 100 < bass - emaStep st.bassEma bass ∧ st.prevBass < bass)

instance (st : DetectState) (bass : ℚ) : Decidable (isStrongKick st bass) := by
  unfold isStrongKick
  exact inferInstance

/-- `isMidHit`: the snare/clap condition of the mid branch. -/
def isMidHit (st : DetectState) (mid : ℚ) : Prop :=
  (4 / 100 < mid - emaStep st.midEma mid ∧ 12 / 100 < mid) ∨
  (st.prevMid * (125 / 100) < mid ∧ 15 / 100 < mid ∧
    2 / 100 < mid - emaStep st.midEma mid)

instance (st : DetectState) (mid : ℚ) : Decidable (isMidHit st mid) := by
  unfold isMidHit
  exact inferInstance

/-- `isHighHit`: the hi-hat condition of the high branch. -/
def isHighHit (st : DetectState) (high : ℚ) : Prop :=
  (45 / 1000 < high - emaStep st.highEma high ∧ 12 / 100 < high) ∨
  (st.prevHigh * (13 / 10) < high ∧ 15 / 100 < high ∧
    25 / 1000 < high - emaStep st.highEma high)

instance (st : DetectState) (high : ℚ) : Decidable (isHighHit st high) := by
  unfold isHighHit
  exact inferInstance

/-- One tick of `detectAndSpawnRipples(now, dtMs, bass, mid, high)`: update
the EMAs, decrement the shared cooldown, then walk the
kick / mid / high `else-if` chain exactly as written.  The returned
`Option Band` records which band a ripple was spawned from, if any
(the random spawn centres do not affect the branch taken). -/
def detectStep (st : DetectState) (now dtMs bass mid high : ℚ) :
    DetectState × Option Band :=
  if isStrongKick st bass ∧ decCooldown st.cooldown dtMs ≤ 0 then
    ({ tempo := updateTempo st.tempo now
       bassEma := emaStep st.bassEma bass
       midEma := emaStep st.midEma mid
       highEma := emaStep st.highEma high
       prevBass := bass, prevMid := mid, prevHigh := high
       cooldown := 60000 / st.tempo.bpmEstimate / (7 / 2) }, some Band.bass)
  else if decCooldown st.cooldown dtMs ≤ 0 then
    if isMidHit st mid then
      ({ st with
         bassEma := emaStep st.bassEma bass
         midEma := emaStep st.midEma mid
         highEma := emaStep st.highEma high
         prevBass := bass, prevMid := mid, prevHigh := high
         cooldown := 60000 / st.tempo.bpmEstimate / (9 / 2) }, some Band.mid)
    else
      ({ st with
         bassEma := emaStep st.bassEma bass
         midEma := emaStep st.midEma mid
         highEma := emaStep st.highEma high
         prevBass := bass, prevMid := mid, prevHigh := high
         cooldown := decCooldown st.cooldown dtMs }, none)
  else if decCooldown st.cooldown dtMs ≤ 0 then
    if isHighHit st high then
      ({ st with
         bassEma := emaStep st.bassEma bass
         midEma := emaStep st.midEma mid
         highEma := emaStep st.highEma high
         prevBass := bass, prevMid := mid, prevHigh := high
         cooldown := 60000 / st.tempo.bpmEstimate / (9 / 2) * (7 / 10) }, some Band.high)
    else
      ({ st with
         bassEma := emaStep st.bassEma bass
         midEma := emaStep st.midEma mid
         highEma := emaStep st.highEma high
         prevBass := bass, prevMid := mid, prevHigh := high
         cooldown := decCooldown st.cooldown dtMs }, none)
  else
    ({ st with
       bassEma := emaStep st.bassEma bass
       midEma := emaStep st.midEma mid
       highEma := emaStep st.highEma high
       prevBass := bass, prevMid := mid, prevHigh := high
       cooldown := decCooldown st.cooldown dtMs }, none)

/-- C10. The high-band branch of `detectAndSpawnRipples` is dead code: the
mid and high branches are guarded by the identical condition
`cooldown <= 0` in an `else-if` chain, so no ripple is ever spawned from the
high band; while the single shared cooldown timer is still positive no band
at all can fire; and whenever the kick condition fails and the cooldown has
elapsed the tick takes the mid branch. -/
theorem detect_high_branch_unreachable (st : DetectState) (now dtMs bass mid high : ℚ) :
    (detectStep st now dtMs bass mid high).2 ≠ some Band.high ∧
    (0 < decCooldown st.cooldown dtMs →
      (detectStep st now dtMs bass mid high).2 = none) ∧
    (¬ isStrongKick st bass → decCooldown st.cooldown dtMs ≤ 0 →
      (detectStep st now dtMs bass mid high).2 =
        if isMidHit st mid then some Band.mid else none) := by
  refine ⟨?_, ?_, ?_⟩
  · unfold detectStep
    split_ifs <;> simp_all
  · intro hpos
    unfold detectStep
    split_ifs <;> first | rfl | linarith
  · intro hnk hcd
    unfold detectStep
    split_ifs <;> first | rfl | tauto

/-- Concrete instance of the C10 theorem: a quiet bass with a loud mid on an
elapsed cooldown spawns from the mid band (never the high band), and a
still-positive cooldown spawns nothing. -/
theorem detect_high_branch_unreachable_witness :
    (detectStep (DetectState.mk (TempoState.mk [] 0 120 0) 0 0 0 0 0 0 0)
      1000 16 0 (1 / 2) 0).2 = some Band.mid ∧
    (detectStep (DetectState.mk (TempoState.mk [] 0 120 0) 0 0 0 0 0 0 5)
      1000 1 0 (1 / 2) 0).2 = none := by
  constructor
  · have h := detect_high_branch_unreachable
      (DetectState.mk (TempoState.mk [] 0 120 0) 0 0 0 0 0 0 0) 1000 16 0 (1 / 2) 0
    have hnk : ¬ isStrongKick
        (DetectState.mk (TempoState.mk [] 0 120 0) 0 0 0 0 0 0 0) 0 := by
      unfold isStrongKick emaStep
      rintro (⟨h1, -⟩ | ⟨h1, -, -⟩ | ⟨h1, -, -⟩) <;> norm_num at h1
    have hcd : decCooldown (0 : ℚ) 16 ≤ 0 := by
      unfold decCooldown
      norm_num
    have hmid : isMidHit
        (DetectState.mk (TempoState.mk [] 0 120 0) 0 0 0 0 0 0 0) (1 / 2) := by
      unfold isMidHit emaStep
      left
      constructor <;> norm_num
    rw [h.2.2 hnk hcd, if_pos hmid]
  · have h2 := detect_high_branch_unreachable
      (DetectState.mk (TempoState.mk [] 0 120 0) 0 0 0 0 0 0 5) 1000 1 0 (1 / 2) 0
    apply h2.2.1
    unfold decCooldown
    norm_num

end Soudofme
